import Mathlib

/-!
Verification of the message formatter in src/error_messages.py.

The repository holds a single pure function, get_file_locked_message,
which interpolates a file path into a fixed multi-line template.  The
definitions below are a shallow embedding of that function; the theorems
settle the behavioural claims made about it.
-/

/-- Shallow embedding of get_file_locked_message (src/error_messages.py,
lines 5-21).  The Python body is a single return of a triple-quoted
f-string; the f-string is exactly a fixed text before the interpolation,
the argument itself, and a fixed text after it, which is written here as
string concatenation. -/
def get_file_locked_message (filepath : String) : String :=
  "\nFile Save Error\n\nThe file could not be saved because it is currently open in another program.\n\nPlease close the file \"" ++ filepath ++ "\" and try again.\n"

/-- The fixed text preceding the path in the template claimed by the spec
sentence of C3 (written from the claim, to be compared with the source
embedding). -/
def specTemplatePre : String :=
  "\nFile Save Error\n\nThe file could not be saved because it is currently open in another program.\n\nPlease close the file \""

/-- The fixed text following the path in the template claimed by the spec
sentence of C3 (written from the claim, to be compared with the source
embedding). -/
def specTemplateSuf : String :=
  "\" and try again.\n"

/-- The message as the spec sentence of C3 describes it: the fixed front
text, then the path, then the fixed back text. -/
def specMessageTemplate (p : String) : String :=
  specTemplatePre ++ p ++ specTemplateSuf

/-- Except-valued embedding of get_file_locked_message.  The Python body
is a single return of an f-string over the argument; no operation in it
can raise, so the embedding has no error branch at all: it is
unconditionally Except.ok of the result. -/
def get_file_locked_messageE (filepath : String) : Except String String :=
  Except.ok (get_file_locked_message filepath)

/-- State-threading embedding of get_file_locked_message over an
arbitrary ambient program state.  The Python body contains no
assignment, no I/O and no call with effects, so the ambient state passes
through the call untouched and only the returned string is produced. -/
def get_file_locked_messageSt (σ : Type) (st : σ) (filepath : String) : σ × String :=
  (st, get_file_locked_message filepath)

/-- C1: for every string p, the text returned by get_file_locked_message
contains p verbatim as a contiguous substring: the output splits as some
text, then p itself unmodified, then some text. -/
theorem get_file_locked_message_contains_path (p : String) :
    ∃ a b : String, get_file_locked_message p = a ++ p ++ b :=
  ⟨"\nFile Save Error\n\nThe file could not be saved because it is currently open in another program.\n\nPlease close the file \"",
   "\" and try again.\n", rfl⟩

/-- C2: get_file_locked_message returns normally on every string input:
the Except-valued embedding always yields Except.ok, never an error. -/
theorem get_file_locked_message_never_fails (p : String) :
    ∃ out : String, get_file_locked_messageE p = Except.ok out :=
  ⟨get_file_locked_message p, rfl⟩

/-- C3: for every string p, get_file_locked_message p is exactly the
fixed front text, then p, then the fixed back text, i.e. the function
coincides with the template the claim spells out. -/
theorem get_file_locked_message_eq_template (p : String) :
    get_file_locked_message p = specMessageTemplate p :=
  rfl

/-- C4: on the input /tmp/report.docx, the returned message has the line
saying to please close the file /tmp/report.docx and try again as one of
its lines (the lines of the message being the segments between newline
characters). -/
theorem get_file_locked_message_report_line :
    "Please close the file \"/tmp/report.docx\" and try again.".data ∈
      (get_file_locked_message "/tmp/report.docx").data.splitOn '\n' := by
  decide

/-- C5: on the empty-string input, the returned message contains the
text saying to please close the file (with an empty quoted name) and try
again, both as one of its lines and as a contiguous substring: the empty
input is not special-cased. -/
theorem get_file_locked_message_empty_input :
    "Please close the file \"\" and try again.".data ∈
        (get_file_locked_message "").data.splitOn '\n' ∧
      ∃ a b : String,
        get_file_locked_message "" =
          a ++ "Please close the file \"\" and try again." ++ b := by
  refine ⟨by decide, "\nFile Save Error\n\nThe file could not be saved because it is currently open in another program.\n\n", "\n", ?_⟩
  rfl

/-- C6: for every string p, the returned message is multi-line (it
contains a newline character) and contains both the statement that the
file could not be saved because it is currently open in another program
and the instruction to close the named file and try again. -/
theorem get_file_locked_message_multiline_content (p : String) :
    (∃ a b : String, get_file_locked_message p = a ++ "\n" ++ b) ∧
      (∃ a b : String,
        get_file_locked_message p =
          a ++ "The file could not be saved because it is currently open in another program." ++ b) ∧
      (∃ a b : String,
        get_file_locked_message p =
          a ++ ("Please close the file \"" ++ p ++ "\" and try again.") ++ b) := by
  refine ⟨⟨"", "File Save Error\n\nThe file could not be saved because it is currently open in another program.\n\nPlease close the file \"" ++ p ++ "\" and try again.\n", rfl⟩,
    ⟨"\nFile Save Error\n\n", "\n\nPlease close the file \"" ++ p ++ "\" and try again.\n", rfl⟩,
    ⟨"\nFile Save Error\n\nThe file could not be saved because it is currently open in another program.\n\n", "\n", ?_⟩⟩
  simp only [String.append_assoc]
  rfl

/-- C7: get_file_locked_message is deterministic: its output depends
only on its argument, so equal inputs give equal outputs. -/
theorem get_file_locked_message_deterministic (p q : String) (h : p = q) :
    get_file_locked_message p = get_file_locked_message q :=
  congrArg get_file_locked_message h

/-- Witness for C7 at the concrete input /tmp/report.docx. -/
theorem get_file_locked_message_deterministic_witness :
    get_file_locked_message "/tmp/report.docx" = get_file_locked_message "/tmp/report.docx" :=
  get_file_locked_message_deterministic "/tmp/report.docx" "/tmp/report.docx" rfl

/-- C8: get_file_locked_message is pure: in the state-threading
embedding over an arbitrary ambient state, the state after the call is
exactly the state before it, and the returned string is the pure
function of the argument. -/
theorem get_file_locked_message_frame (σ : Type) (st : σ) (p : String) :
    (get_file_locked_messageSt σ st p).1 = st ∧
      (get_file_locked_messageSt σ st p).2 = get_file_locked_message p :=
  ⟨rfl, rfl⟩

/-- C9: get_file_locked_message is injective: equal outputs force equal
inputs, since the path sits between fixed front and back texts and can
be cancelled out on both sides. -/
theorem get_file_locked_message_injective (p q : String)
    (h : get_file_locked_message p = get_file_locked_message q) : p = q := by
  have hd := congrArg String.data h
  simp only [get_file_locked_message, String.data_append] at hd
  exact String.ext (List.append_cancel_left (List.append_cancel_right hd))

/-- Witness for C9 at the concrete input /tmp/report.docx. -/
theorem get_file_locked_message_injective_witness :
    ("/tmp/report.docx" : String) = "/tmp/report.docx" :=
  get_file_locked_message_injective "/tmp/report.docx" "/tmp/report.docx" rfl

/-- C10: for every string p, the returned message begins with a newline
character immediately followed by the header line File Save Error
(itself ended by a newline), and the whole message ends with a newline
character. -/
theorem get_file_locked_message_leading_trailing_newline (p : String) :
    (∃ r : String, get_file_locked_message p = "\nFile Save Error\n" ++ r) ∧
      (∃ i : String, get_file_locked_message p = i ++ "\n") := by
  refine ⟨⟨"\nThe file could not be saved because it is currently open in another program.\n\nPlease close the file \"" ++ p ++ "\" and try again.\n", rfl⟩,
    ⟨"\nFile Save Error\n\nThe file could not be saved because it is currently open in another program.\n\nPlease close the file \"" ++ p ++ "\" and try again.", ?_⟩⟩
  simp only [String.append_assoc]
  rfl
